import Mathlib

/-!
Verification of the safety-critical core of a cab-signaling and train-protection
simulation (ASC, ACSES, alerter, and brake fusion for an LIRR electric multiple
unit). The definitions below are shallow embeddings of the TypeScript sources:
pure functions become Lean functions and each reactive fold becomes an explicit
step function on an accumulator type, with the sampled behaviors passed as
arguments. Quantities are rationals (the sources use Lua numbers); the braking
curve, which takes a square root, is embedded over the reals.
-/

namespace M3

/-- Modelled from the spec: the miles-per-hour to meters-per-second conversion
factor from the lib/constants module, which is not among the sources. It is
the standard factor 0.44704. -/
def mphToMps : ℚ := 44704 / 100000

/-- Modelled from the spec: the meters-per-second to miles-per-hour conversion
factor from the missing lib/constants module; the inverse of mphToMps. -/
def mpsToMph : ℚ := 100000 / 44704

/-- Modelled from the spec: the stop-speed threshold from the missing
lib/constants module. The spec calls it only "a stop threshold"; the claims
depend only on it being a small positive value. -/
def stopSpeed : ℚ := 1 / 100

/-! ## Master controller and brake demand types (M7_EngineScript.ts) -/

/-- The master controller region (type MasterController in M7_EngineScript.ts). -/
inductive MasterController where
  | power (frac : ℚ)
  | coast
  | serviceBrake (frac : ℚ)
  | emergencyBrake
  deriving DecidableEq

/-- The alerter brake demand (enum AlerterBrake in alerter.ts). -/
inductive AlerterBrake where
  | none
  | penalty
  deriving DecidableEq

/-- The ASC brake demand (enum AscBrake in asc.ts). -/
inductive AscBrake where
  | none
  | penalty
  | maxService
  | emergency
  deriving DecidableEq

/-- The ACSES brake demand (enum AcsesBrake in acses.ts). -/
inductive AcsesBrake where
  | none
  | penalty
  | positiveStop
  deriving DecidableEq

/-- A fused brake command or discrete brake event, mirroring the TS union
BrakeCommand | BrakeEvent over the BrakeType enum in M7_EngineScript.ts. -/
inductive BrakeCmd where
  | none
  | service (frac : ℚ)
  | emergency
  | charge (amount : ℚ)
  | autostart
  deriving DecidableEq

/-- The per-tick brake demand fusion (M7_EngineScript.ts lines 428-449). -/
def brakeCommand (mc : MasterController) (aleBrake : AlerterBrake)
    (ascBrake : AscBrake) (acsesBrake : AcsesBrake) : BrakeCmd :=
  if ascBrake = AscBrake.emergency ∨ mc = MasterController.emergencyBrake then
    BrakeCmd.emergency
  else if aleBrake = AlerterBrake.penalty ∨ ascBrake = AscBrake.penalty ∨
      acsesBrake = AcsesBrake.penalty ∨ acsesBrake = AcsesBrake.positiveStop then
    BrakeCmd.service 1
  else
    match mc with
    | MasterController.coast => BrakeCmd.none
    | MasterController.power _ => BrakeCmd.none
    | MasterController.serviceBrake frac => BrakeCmd.service frac
    | MasterController.emergencyBrake => BrakeCmd.emergency

/-! ## Emergency brake latch (M7_EngineScript.ts lines 492-512) -/

/-- Whether the emergency latch may release: train speed below the stop
threshold and brake pipe fully discharged (M7_EngineScript.ts lines 492-496). -/
def emergencyBrakeCanRelease (speedMph bpPsi : ℚ) : Bool :=
  decide (speedMph < stopSpeed) && decide (bpPsi ≤ 0)

/-- One step of the emergency-brake latch fold (M7_EngineScript.ts lines
497-509); canRelease is the sampled emergencyBrakeCanRelease behavior. -/
def emergencyBrakeStep (accum : Bool) (command : BrakeCmd) (canRelease : Bool) : Bool :=
  if command = BrakeCmd.emergency then true
  else if command = BrakeCmd.autostart then false
  else if accum then !canRelease
  else false

/-- The latch folded over a sequence of inputs, each carrying a brake command
or event together with the sampled speed and brake pipe pressure. -/
def emergencyBrakeRun (start : Bool) (inputs : List (BrakeCmd × ℚ × ℚ)) : Bool :=
  inputs.foldl
    (fun accum inp => emergencyBrakeStep accum inp.1 (emergencyBrakeCanRelease inp.2.1 inp.2.2))
    start

/-! ## Alerter (alerter.ts) -/

/-- The alerter accumulator (type AlerterAccum in alerter.ts). -/
inductive AlerterAccum where
  | countdown (remainingS : ℚ)
  | alarm (remainingS : ℚ)
  | penalty
  deriving DecidableEq

/-- Events consumed by the alerter fold (type AlerterEvent plus AlerterInput in
alerter.ts). -/
inductive AlerterEvent where
  | update (deltaS : ℚ)
  | reset
  | activity
  | activityThatCancelsPenalty
  deriving DecidableEq

/-- The full countdown time (alerter.ts line 47). -/
def countdownS : ℚ := 25

/-- The alarm time (alerter.ts line 48). -/
def alarmS : ℚ := 15

/-- The alerter start accumulator (alerter.ts line 104). -/
def alerterAccumStart : AlerterAccum := AlerterAccum.countdown countdownS

/-- The alerter state (type AlerterState in alerter.ts). -/
structure AlerterState where
  brakes : AlerterBrake
  alarm : Bool
  deriving DecidableEq

/-- One step of the alerter fold (alerter.ts lines 110-134), with the sampled
isActive and isExteriorCamera behaviors passed explicitly. -/
def alerterStep (isActive isExteriorCamera : Bool) (accum : AlerterAccum)
    (event : AlerterEvent) : AlerterAccum :=
  if isActive = false ∨ event = AlerterEvent.reset then alerterAccumStart
  else if accum = AlerterAccum.penalty then
    if event = AlerterEvent.activityThatCancelsPenalty then alerterAccumStart
    else AlerterAccum.penalty
  else if event = AlerterEvent.activity ∨ event = AlerterEvent.activityThatCancelsPenalty ∨
      isExteriorCamera = true then
    alerterAccumStart
  else
    match accum, event with
    | AlerterAccum.countdown accumS, AlerterEvent.update dt =>
        if accumS - dt ≤ 0 then AlerterAccum.alarm alarmS
        else AlerterAccum.countdown (accumS - dt)
    | AlerterAccum.alarm accumS, AlerterEvent.update dt =>
        if accumS - dt ≤ 0 then AlerterAccum.penalty
        else AlerterAccum.alarm (accumS - dt)
    | other, _ => other

/-- The alerter output mapping (alerter.ts lines 135-140). -/
def alerterOutput (accum : AlerterAccum) : AlerterState :=
  { brakes := if accum = AlerterAccum.penalty then AlerterBrake.penalty else AlerterBrake.none,
    alarm :=
      match accum with
      | AlerterAccum.penalty => true
      | AlerterAccum.alarm _ => true
      | AlerterAccum.countdown _ => false }

/-- The alerter folded over n uniform one-second clock ticks with the subsystem
active, the cab camera selected, and no activity events. -/
def alerterTicks (n : ℕ) : AlerterAccum :=
  (List.replicate n (AlerterEvent.update 1)).foldl (alerterStep true false) alerterAccumStart

/-! ## Automatic Speed Control (asc.ts) -/

/-- The six LIRR cab-signal aspects (enum LirrAspect in cabsignals.ts), listed
so that a more restrictive aspect has a smaller index. -/
inductive LirrAspect where
  | speed15
  | speed30
  | speed40
  | speed60
  | speed70
  | speed80
  deriving DecidableEq

/-- Per-aspect overspeed setpoints in m/s (asc.ts lines 301-312). -/
def toOverspeedSetpointMps (aspect : LirrAspect) : ℚ :=
  (match aspect with
    | LirrAspect.speed15 => 17
    | LirrAspect.speed30 => 32
    | LirrAspect.speed40 => 41
    | LirrAspect.speed60 => 64
    | LirrAspect.speed70 => 71
    | LirrAspect.speed80 => 82) * mphToMps

/-- Per-aspect underspeed (release) setpoints in m/s (asc.ts lines 314-325). -/
def toUnderspeedSetpointMps (aspect : LirrAspect) : ℚ :=
  (match aspect with
    | LirrAspect.speed15 => 15
    | LirrAspect.speed30 => 30
    | LirrAspect.speed40 => 39
    | LirrAspect.speed60 => 62
    | LirrAspect.speed70 => 69
    | LirrAspect.speed80 => 80) * mphToMps

/-- Brake-assurance required deceleration rate lookup (asc.ts lines 327-344);
none for the Speed15 aspect. -/
def toBrakeAssuranceRateMphS (aspect : LirrAspect) (initSpeedMps : ℚ) : Option ℚ :=
  let speedMph := initSpeedMps * mpsToMph
  let oneThree : ℚ := -13 / 10 * mphToMps
  let oneSeven : ℚ := -17 / 10 * mphToMps
  match aspect with
  | LirrAspect.speed15 => none
  | LirrAspect.speed30 => some (if speedMph > 29 then oneSeven else oneThree)
  | LirrAspect.speed40 => some (if speedMph > 32 then oneSeven else oneThree)
  | LirrAspect.speed60 => some (if speedMph > 56 then oneSeven else oneThree)
  | LirrAspect.speed70 => some (if speedMph > 60 then oneSeven else oneThree)
  | LirrAspect.speed80 => some (if speedMph > 67 then oneSeven else oneThree)

/-- Brake-assurance time budget lookup (asc.ts lines 346-361); none for the
Speed15 aspect. -/
def toBrakeAssuranceTimeS (aspect : LirrAspect) (initSpeedMps : ℚ) : Option ℚ :=
  let speedMph := initSpeedMps * mpsToMph
  match aspect with
  | LirrAspect.speed15 => none
  | LirrAspect.speed30 => some 3
  | LirrAspect.speed40 => some (if speedMph > 32 then 3 else 7 / 2)
  | LirrAspect.speed60 => some (if speedMph > 56 then 3 else 11 / 2)
  | LirrAspect.speed70 => some (if speedMph > 60 then 3 else 13 / 2)
  | LirrAspect.speed80 => some (if speedMph > 67 then 3 else 15 / 2)

/-- The ASC accumulator (type AscAccum in asc.ts). -/
inductive AscAccum where
  | normal
  | downgrade (stopwatchS : ℚ) (acknowledged : Bool)
  | overspeed (initAspect : LirrAspect) (initSpeedMps : ℚ) (stopwatchS : ℚ) (acknowledged : Bool)
  | emergency
  deriving DecidableEq

/-- Events consumed by the ASC fold (type AscEvent in asc.ts). -/
inductive AscEvent where
  | update (deltaS : ℚ)
  | overspeedEntry (initAspect : LirrAspect) (initSpeedMps : ℚ)
  | downgrade
  deriving DecidableEq

/-- The sampled behaviors consumed by one ASC fold step: cut-in and power
state, acknowledge joystick, master controller in coast-or-brake, absolute
speedometer speed, measured acceleration in mph/s, and the stepped cab
aspect. -/
structure AscInputs where
  isActive : Bool
  acknowledge : Bool
  coastOrBrake : Bool
  aSpeedMps : ℚ
  accelMphS : ℚ
  theCabAspect : Option LirrAspect
  deriving DecidableEq

/-- The brake-assurance check (asc.ts lines 102-105): compares the measured
acceleration against the required rate, undefined when no rate is defined for
the aspect. -/
def isBrakeAssurance (inp : AscInputs) (aspect : LirrAspect) (speedMps : ℚ) : Option Bool :=
  match toBrakeAssuranceRateMphS aspect speedMps with
  | some rateMphS => some (decide (inp.accelMphS < rateMphS))
  | none => none

/-- Downgrade escalation threshold to penalty braking (asc.ts line 60). -/
def downgradePenaltyS : ℚ := 7

/-- Downgrade escalation threshold to max-service braking (asc.ts line 61). -/
def downgradeMaxServiceS : ℚ := 14

/-- Downgrade escalation threshold to emergency braking (asc.ts line 62). -/
def downgradeEmergencyS : ℚ := 21

/-- One step of the ASC fold (asc.ts lines 138-235). -/
def ascStep (inp : AscInputs) (accum : AscAccum) (event : AscEvent) : AscAccum :=
  if inp.isActive = false then AscAccum.normal
  else
    let stopped := inp.aSpeedMps < stopSpeed
    match accum with
    | AscAccum.emergency =>
        -- Emergency braking; stay until the train has stopped.
        if inp.acknowledge = true ∧ inp.coastOrBrake = true ∧ stopped then AscAccum.normal
        else AscAccum.emergency
    | AscAccum.normal =>
        match event with
        | AscEvent.downgrade => AscAccum.downgrade 0 false
        | AscEvent.overspeedEntry initAspect initSpeedMps =>
            AscAccum.overspeed initAspect initSpeedMps 0 false
        | AscEvent.update _ => AscAccum.normal
    | AscAccum.downgrade stopwatchS ack =>
        match event with
        | AscEvent.downgrade => AscAccum.downgrade stopwatchS ack
        | AscEvent.overspeedEntry initAspect initSpeedMps =>
            AscAccum.overspeed initAspect initSpeedMps 0 false
        | AscEvent.update dt =>
            if ack = true then AscAccum.normal
            else if stopwatchS > downgradeEmergencyS then AscAccum.emergency
            else AscAccum.downgrade (stopwatchS + dt) (inp.acknowledge || ack)
    | AscAccum.overspeed initAspect initSpeedMps stopwatchS ack =>
        match event with
        | AscEvent.downgrade => AscAccum.overspeed initAspect initSpeedMps stopwatchS ack
        | AscEvent.overspeedEntry _ _ => AscAccum.overspeed initAspect initSpeedMps stopwatchS ack
        | AscEvent.update dt =>
            let underSpeed : Bool :=
              match inp.theCabAspect with
              | none => true
              | some theAspect => decide (inp.aSpeedMps < toUnderspeedSetpointMps theAspect)
            let acked := ack || inp.acknowledge
            if underSpeed && acked && inp.coastOrBrake then AscAccum.normal
            else
              let brakeAssurance := (isBrakeAssurance inp initAspect initSpeedMps).getD true
              match toBrakeAssuranceTimeS initAspect initSpeedMps with
              | some brakeAssuranceTimeS =>
                  if stopwatchS > brakeAssuranceTimeS ∧ brakeAssurance = false then
                    AscAccum.emergency
                  else AscAccum.overspeed initAspect initSpeedMps (stopwatchS + dt) acked
              | none => AscAccum.overspeed initAspect initSpeedMps (stopwatchS + dt) acked

/-- The ASC output state (type AscState in asc.ts). -/
structure AscState where
  brakes : AscBrake
  alarm : Bool
  overspeed : Bool
  atcForestall : Bool
  brakeAssurance : Bool
  deriving DecidableEq

/-- The ASC output mapping (asc.ts lines 236-297). -/
def ascOutput (inp : AscInputs) (accum : AscAccum) : AscState :=
  match accum with
  | AscAccum.normal =>
      { brakes := AscBrake.none, alarm := false, overspeed := false, atcForestall := false,
        brakeAssurance :=
          (isBrakeAssurance inp (inp.theCabAspect.getD LirrAspect.speed15) inp.aSpeedMps).getD
            false }
  | AscAccum.emergency =>
      { brakes := AscBrake.emergency, alarm := true, overspeed := false, atcForestall := false,
        brakeAssurance := false }
  | AscAccum.downgrade stopwatchS _ =>
      { brakes :=
          if stopwatchS > downgradeMaxServiceS then AscBrake.maxService
          else if stopwatchS > downgradePenaltyS then AscBrake.penalty
          else AscBrake.none,
        alarm := true, overspeed := false, atcForestall := false,
        brakeAssurance :=
          (isBrakeAssurance inp (inp.theCabAspect.getD LirrAspect.speed15) inp.aSpeedMps).getD
            false }
  | AscAccum.overspeed initAspect initSpeedMps _ ack =>
      let brakeAssurance := isBrakeAssurance inp initAspect initSpeedMps
      let satisfied := brakeAssurance.getD true && ack && inp.coastOrBrake
      { brakes := AscBrake.penalty,
        alarm := !satisfied,
        overspeed := decide (inp.aSpeedMps > toUnderspeedSetpointMps initAspect),
        atcForestall := !brakeAssurance.getD false,
        brakeAssurance := brakeAssurance.getD false }

/-- The overspeed-detection behavior (asc.ts lines 107-113): active, a cab
aspect has been received, and the measured speed exceeds the overspeed
setpoint of that aspect. -/
def isOverspeed (isActive : Bool) (cabAspect : Option LirrAspect) (speedMps : ℚ) : Bool :=
  isActive &&
    (match cabAspect with
      | none => false
      | some aspect => decide (speedMps > toOverspeedSetpointMps aspect))

/-! ## ACSES hazard model and sorting (acses.ts) -/

/-- The "never" sentinel speed (acses.ts line 70). -/
def hugeSpeed : ℚ := 999

/-- The ACSES alert margin in m/s (acses.ts line 65). -/
def alertMarginMps : ℚ := 3 * mphToMps

/-- The ACSES penalty margin in m/s (acses.ts line 66). -/
def penaltyMarginMps : ℚ := 6 * mphToMps

/-- The data carried by any ACSES hazard (interface Hazard in acses.ts). The
curve speeds of advance-limit and stop-signal hazards are recomputed each tick
from the braking curve; for the sorting invariant they enter as plain values. -/
structure Hazard where
  alertCurveMps : ℚ
  penaltyCurveMps : ℚ
  trackSpeedMps : Option ℚ
  deriving DecidableEq

instance : Inhabited Hazard := ⟨⟨0, 0, none⟩⟩

/-- The stateless track-speed hazard (class TrackSpeedHazard in acses.ts
lines 685-695). -/
def trackSpeedHazard (speedMps : ℚ) : Hazard :=
  { alertCurveMps := speedMps + alertMarginMps,
    penaltyCurveMps := speedMps + penaltyMarginMps,
    trackSpeedMps := some speedMps }

/-- The comparison used to sort hazards: ascending penalty-curve speed
(acses.ts line 175). -/
def hazardLE (a b : Hazard) : Prop := a.penaltyCurveMps ≤ b.penaltyCurveMps

instance : DecidableRel hazardLE :=
  fun a b => inferInstanceAs (Decidable (a.penaltyCurveMps ≤ b.penaltyCurveMps))

instance : IsTotal Hazard hazardLE := ⟨fun a b => le_total a.penaltyCurveMps b.penaltyCurveMps⟩

instance : IsTrans Hazard hazardLE := ⟨fun _ _ _ h1 h2 => le_trans h1 h2⟩

/-- Sorting the hazard list by penalty-curve speed (acses.ts line 175). -/
def sortHazards (hazards : List Hazard) : List Hazard := List.insertionSort hazardLE hazards

/-- One tick of the sortedHazards fold (acses.ts lines 145-182): the advance
speed limit hazards and stop-signal hazards (passed as an already-updated
list), then the current track speed hazard, sorted by penalty-curve speed. -/
def buildSortedHazards (advanceAndStopHazards : List Hazard) (trackSpeedMps : ℚ) : List Hazard :=
  sortHazards (advanceAndStopHazards ++ [trackSpeedHazard trackSpeedMps])

/-- The in-force hazard selected by the ACSES fold (acses.ts line 225:
inForce = hazards[0]). -/
def acsesInForce (hazards : List Hazard) : Hazard := hazards.headI

/-! ## Track speed tracker (acses.ts lines 446-532) -/

/-- A sensed speed post (type SpeedPost in acses.ts; the limit-type tag is
omitted as the tracker never reads it). -/
structure SpeedPost where
  speedMps : ℚ
  deriving DecidableEq

/-- Both sides of a speed post as recorded while overtaking it (type
TwoSidedSpeedPost in acses.ts). -/
structure TwoSidedSpeedPost where
  before : Option SpeedPost
  after : Option SpeedPost
  deriving DecidableEq

/-- Score the entries of a map and return the best-scoring key; entries scored
undefined are excluded and on ties the first-found entry wins (acses.ts lines
651-662). The map is modelled as an association list in iteration order. -/
def bestScoreOfMapEntries {V : Type} (entries : List (ℕ × V))
    (score : ℕ → V → Option ℚ) : Option ℕ :=
  (entries.foldl
      (fun best kv =>
        match score kv.1 kv.2 with
        | none => best
        | some s =>
            match best with
            | none => some (kv.1, s)
            | some (_, bestScore) => if s > bestScore then some (kv.1, s) else best)
      none).map
    Prod.fst

/-- Lookup in an association-list map. -/
def lookupEntry {V : Type} (entries : List (ℕ × V)) (key : ℕ) : Option V :=
  (entries.find? (fun kv => kv.1 == key)).map Prod.snd

/-- One step of the track-speed fold (acses.ts lines 455-499): reset returns 0;
otherwise the limit is inferred from the two-sided posts adjacent to the
vehicle with carry-forward, and the game-provided limit is adopted when it is
strictly greater or when the nearest post behind is beyond the consist. -/
def trackSpeedStep (reset : Bool) (twoSidedPosts : List (ℕ × TwoSidedSpeedPost))
    (gameTrackSpeedLimitMps consistLengthM : ℚ) (accum : ℚ)
    (index : List (ℕ × (ℚ × SpeedPost))) : ℚ :=
  if reset = true then 0
  else
    -- Locate the adjacent speed posts.
    let justBefore := bestScoreOfMapEntries index
      (fun _ v => if v.1 < 0 then some v.1 else none)
    let justAfter := bestScoreOfMapEntries index
      (fun _ v => if v.1 > 0 then some (-v.1) else none)
    -- If the vehicle is on the other side of a recorded speed post, infer the
    -- current speed limit.
    let inferredBefore : Option ℚ :=
      match justBefore with
      | some id =>
          (lookupEntry twoSidedPosts id).bind (fun twoPost => twoPost.after.map SpeedPost.speedMps)
      | none => none
    let inferredEither : Option ℚ :=
      match inferredBefore with
      | some v => some v
      | none =>
          match justAfter with
          | some id =>
              (lookupEntry twoSidedPosts id).bind
                (fun twoPost => twoPost.before.map SpeedPost.speedMps)
          | none => none
    -- If inference fails, stick with the previous speed.
    let inferredSpeedMps := inferredEither.getD accum
    if gameTrackSpeedLimitMps > inferredSpeedMps then gameTrackSpeedLimitMps
    else
      match justBefore with
      | some id =>
          match lookupEntry index id with
          | some justBeforeSensed =>
              if -justBeforeSensed.1 > consistLengthM then gameTrackSpeedLimitMps
              else inferredSpeedMps
          | none => inferredSpeedMps
      | none => inferredSpeedMps

/-! ## ACSES braking curve (acses.ts lines 761-764), over the reals -/

/-- The ACSES penalty deceleration constant in m/s² (acses.ts line 68):
-1 mph/s expressed in m/s², i.e. -1 * mph.toMps. -/
noncomputable def penaltyCurveMps2 : ℝ := -1 * (44704 / 100000)

/-- The radicand of the braking-curve square root. -/
noncomputable def gbcRadicand (vf d t : ℝ) : ℝ :=
  (penaltyCurveMps2 * t) ^ 2 - 2 * penaltyCurveMps2 * d + vf ^ 2

/-- The braking curve (function getBrakingCurve in acses.ts lines 761-764);
Math.pow with exponent 0.5 is the real power function. -/
noncomputable def getBrakingCurve (vf d t : ℝ) : ℝ :=
  max (((penaltyCurveMps2 * t) ^ 2 - 2 * penaltyCurveMps2 * d + vf ^ 2) ^ ((1 : ℝ) / 2) +
      penaltyCurveMps2 * t)
    vf

theorem penaltyCurveMps2_neg : penaltyCurveMps2 < 0 := by
  rw [penaltyCurveMps2]; norm_num

theorem gbcRadicand_nonneg (vf d t : ℝ) (hd : 0 ≤ d) :
    0 ≤ gbcRadicand vf d t := by
  have ha : penaltyCurveMps2 < 0 := penaltyCurveMps2_neg
  rw [gbcRadicand]
  nlinarith [sq_nonneg (penaltyCurveMps2 * t), sq_nonneg vf,
    mul_nonpos_of_nonpos_of_nonneg (le_of_lt ha) hd]

theorem getBrakingCurve_sqrt (vf d t : ℝ) :
    getBrakingCurve vf d t = max (Real.sqrt (gbcRadicand vf d t) + penaltyCurveMps2 * t) vf := by
  rw [getBrakingCurve, gbcRadicand, Real.sqrt_eq_rpow]

/-! ## Claim theorems -/

/-- C1: the stated fusion priority fails on the code at the ASC max-service
demand. With the master controller in Coast, no alerter or ACSES demand, and
the ASC demanding max-service braking, the fused command is None rather than
the full-service command the priority rule requires; the fusion tests only
the ASC Penalty and Emergency demands. -/
theorem brakeCommand_drops_maxService :
    brakeCommand MasterController.coast AlerterBrake.none AscBrake.maxService AcsesBrake.none =
      BrakeCmd.none ∧
    brakeCommand MasterController.coast AlerterBrake.none AscBrake.maxService AcsesBrake.none ≠
      BrakeCmd.service 1 := by
  decide

/-- C2: the emergency latch is set by an emergency brake command, stays set
across every tick whose speed is below the stop threshold while the brake pipe
pressure is still positive, and clears only on a tick where both the speed is
below the stop threshold and the brake pipe is fully discharged (the autostart
event, which is not a tick command, is excluded). -/
theorem emergencyBrake_latch_persistence :
    (∀ (accum : Bool) (speedMph bpPsi : ℚ),
        emergencyBrakeStep accum BrakeCmd.emergency
          (emergencyBrakeCanRelease speedMph bpPsi) = true) ∧
    (∀ inputs : List (BrakeCmd × ℚ × ℚ),
        (∀ inp ∈ inputs, inp.1 ≠ BrakeCmd.autostart ∧ inp.2.1 < stopSpeed ∧ 0 < inp.2.2) →
        emergencyBrakeRun true inputs = true) ∧
    (∀ (command : BrakeCmd) (speedMph bpPsi : ℚ), command ≠ BrakeCmd.autostart →
        emergencyBrakeStep true command (emergencyBrakeCanRelease speedMph bpPsi) = false →
        speedMph < stopSpeed ∧ bpPsi ≤ 0) := by
  refine ⟨?_, ?_, ?_⟩
  · intro accum speedMph bpPsi
    simp [emergencyBrakeStep]
  · intro inputs h
    induction inputs with
    | nil => rfl
    | cons head tail ih =>
        obtain ⟨hcmd, hs, hb⟩ := h head (List.mem_cons_self _ _)
        have hcr : emergencyBrakeCanRelease head.2.1 head.2.2 = false := by
          have : ¬head.2.2 ≤ 0 := not_le.mpr hb
          simp [emergencyBrakeCanRelease, this]
        have hstep :
            emergencyBrakeStep true head.1 (emergencyBrakeCanRelease head.2.1 head.2.2) = true := by
          rw [hcr, emergencyBrakeStep]
          cases hhead : head.1
          case autostart => exact absurd hhead hcmd
          all_goals rfl
        have hrun : emergencyBrakeRun true (head :: tail) = emergencyBrakeRun true tail := by
          simp only [emergencyBrakeRun, List.foldl_cons, hstep]
        rw [hrun]
        exact ih fun inp hmem => h inp (List.mem_cons_of_mem _ hmem)
  · intro command speedMph bpPsi hcmd hstep
    rw [emergencyBrakeStep] at hstep
    by_cases h1 : command = BrakeCmd.emergency
    · rw [if_pos h1] at hstep
      exact absurd hstep (by simp)
    · rw [if_neg h1] at hstep
      by_cases h2 : command = BrakeCmd.autostart
      · exact absurd h2 hcmd
      · rw [if_neg h2, if_pos rfl] at hstep
        have hcr : emergencyBrakeCanRelease speedMph bpPsi = true := by
          cases hc : emergencyBrakeCanRelease speedMph bpPsi
          · rw [hc] at hstep
            exact absurd hstep (by simp)
          · rfl
        simpa [emergencyBrakeCanRelease, Bool.and_eq_true, decide_eq_true_eq] using hcr

/-- Witness for C2 at a concrete latch history and release step. -/
theorem emergencyBrake_latch_persistence_witness :
    emergencyBrakeStep true BrakeCmd.emergency (emergencyBrakeCanRelease 0 5) = true ∧
    emergencyBrakeRun true [(BrakeCmd.service 1, 0, 5), (BrakeCmd.none, 0, 3)] = true ∧
    ((0 : ℚ) < stopSpeed ∧ (0 : ℚ) ≤ 0) :=
  ⟨emergencyBrake_latch_persistence.1 true 0 5,
   emergencyBrake_latch_persistence.2.1 _
     (by
       intro inp hmem
       fin_cases hmem <;> exact ⟨by decide, by norm_num [stopSpeed], by norm_num⟩),
   emergencyBrake_latch_persistence.2.2 BrakeCmd.none 0 0 (by decide)
     (by
       have h1 : emergencyBrakeCanRelease 0 0 = true := by
         rw [emergencyBrakeCanRelease]
         norm_num [stopSpeed]
       rw [h1]
       rfl)⟩

/-- Counterexample for C3: on a tick where the reset condition holds, the
track-speed accumulator returns 0, not a very high sentinel value. -/
theorem trackSpeed_reset_sentinel_counterexample :
    trackSpeedStep true [] 24 100 30 [] = 0 ∧
    trackSpeedStep true [] 24 100 30 [] ≠ hugeSpeed := by
  constructor
  · rfl
  · intro h
    rw [show trackSpeedStep true [] 24 100 30 [] = 0 from rfl] at h
    norm_num [hugeSpeed] at h

/-- C3 (amended): whenever the reset condition holds, the track-speed
accumulator returns 0 rather than a high sentinel; false enforcement before
the first data arrives is avoided because on the next active tick any
host-reported limit greater than the accumulated value, in particular any
positive limit, replaces it. -/
theorem trackSpeed_reset_zero_replaced_by_game (twoSided : List (ℕ × TwoSidedSpeedPost))
    (game consist accum : ℚ) (index : List (ℕ × (ℚ × SpeedPost))) :
    trackSpeedStep true twoSided game consist accum index = 0 ∧
    (0 < game → trackSpeedStep false twoSided game consist 0 [] = game) := by
  constructor
  · rfl
  · intro hg
    simp [trackSpeedStep, bestScoreOfMapEntries, lookupEntry, hg]

/-- Witness for C3 (amended) at concrete values. -/
theorem trackSpeed_reset_zero_replaced_by_game_witness :
    trackSpeedStep true [] 24 100 30 [] = 0 ∧ trackSpeedStep false [] 24 100 0 [] = 24 :=
  ⟨(trackSpeed_reset_zero_replaced_by_game [] 24 100 30 []).1,
   (trackSpeed_reset_zero_replaced_by_game [] 24 100 30 []).2 (by norm_num)⟩

theorem alerterTicks_succ (n : ℕ) :
    alerterTicks (n + 1) = alerterStep true false (alerterTicks n) (AlerterEvent.update 1) := by
  rw [alerterTicks, alerterTicks, List.replicate_succ', List.foldl_append, List.foldl_cons,
    List.foldl_nil]

theorem alerterTicks_countdown (n : ℕ) (h : n ≤ 24) :
    alerterTicks n = AlerterAccum.countdown (countdownS - n) := by
  induction n with
  | zero => simp [alerterTicks, alerterAccumStart]
  | succ n ih =>
      have hn : n ≤ 24 := le_trans (Nat.le_succ n) h
      have hn23 : (n : ℚ) ≤ 23 := by
        exact_mod_cast Nat.lt_succ_iff.mp (Nat.lt_of_succ_le h)
      rw [alerterTicks_succ, ih hn]
      have hpos : ¬(countdownS - (n : ℚ) - 1 ≤ 0) := by
        rw [countdownS]
        linarith
      simp only [alerterStep]
      simp [hpos]
      ring

theorem alerterTicks_alarm (k : ℕ) (h : k ≤ 14) :
    alerterTicks (25 + k) = AlerterAccum.alarm (alarmS - k) := by
  induction k with
  | zero =>
      rw [show 25 + 0 = 24 + 1 from rfl, alerterTicks_succ, alerterTicks_countdown 24 le_rfl]
      simp only [alerterStep]
      norm_num [countdownS]
      simp
  | succ k ih =>
      have hk : k ≤ 14 := le_trans (Nat.le_succ k) h
      have hk13 : (k : ℚ) ≤ 13 := by
        exact_mod_cast Nat.lt_succ_iff.mp (Nat.lt_of_succ_le h)
      rw [show 25 + (k + 1) = (25 + k) + 1 from rfl, alerterTicks_succ, ih hk]
      have hpos : ¬(alarmS - (k : ℚ) - 1 ≤ 0) := by
        rw [alarmS]
        linarith
      simp only [alerterStep]
      simp [hpos]
      ring

/-- C7: from the fresh Countdown(25 s) accumulator with the subsystem active,
pure one-second clock ticks with no activity and the cab camera selected reach
Alarm exactly when 25 s have elapsed and Penalty when 40 s have elapsed; the
Penalty state demands penalty brakes and is preserved by further clock ticks
and plain Activity events, and only an activity-that-cancels-penalty event or
subsystem deactivation restores the full Countdown(25 s). -/
theorem alerter_countdown_alarm_penalty_cycle :
    alerterTicks 24 = AlerterAccum.countdown 1 ∧
    alerterTicks 25 = AlerterAccum.alarm alarmS ∧
    alerterTicks 39 = AlerterAccum.alarm 1 ∧
    alerterTicks 40 = AlerterAccum.penalty ∧
    (alerterOutput AlerterAccum.penalty).brakes = AlerterBrake.penalty ∧
    (∀ (dt : ℚ) (cam : Bool),
        alerterStep true cam AlerterAccum.penalty (AlerterEvent.update dt) = AlerterAccum.penalty) ∧
    (∀ cam : Bool,
        alerterStep true cam AlerterAccum.penalty AlerterEvent.activity = AlerterAccum.penalty) ∧
    (∀ cam : Bool,
        alerterStep true cam AlerterAccum.penalty AlerterEvent.activityThatCancelsPenalty =
          AlerterAccum.countdown countdownS) ∧
    (∀ (cam : Bool) (event : AlerterEvent),
        alerterStep false cam AlerterAccum.penalty event = AlerterAccum.countdown countdownS) := by
  refine ⟨?_, ?_, ?_, ?_, by rfl, ?_, ?_, ?_, ?_⟩
  · rw [alerterTicks_countdown 24 le_rfl]
    norm_num [countdownS]
  · rw [show (25 : ℕ) = 25 + 0 from rfl, alerterTicks_alarm 0 (by norm_num)]
    norm_num
  · rw [show (39 : ℕ) = 25 + 14 from rfl, alerterTicks_alarm 14 le_rfl]
    norm_num [alarmS]
  · rw [show (40 : ℕ) = (25 + 14) + 1 from rfl, alerterTicks_succ,
      alerterTicks_alarm 14 le_rfl]
    simp only [alerterStep]
    norm_num [alarmS]
    simp
  · intro dt cam
    simp [alerterStep]
  · intro cam
    simp [alerterStep]
  · intro cam
    simp [alerterStep, alerterAccumStart]
  · intro cam event
    simp [alerterStep, alerterAccumStart]

/-- C5: the hazard list recomputed each tick is non-empty (it always includes the
track-speed hazard), is sorted ascending by penalty-curve speed, and the
in-force hazard hazards[0] has the minimal penalty-curve speed among all
hazards in the list. -/
theorem acses_hazards_sorted_nonempty_min (others : List Hazard) (trackSpeedMps : ℚ) :
    buildSortedHazards others trackSpeedMps ≠ [] ∧
    List.Sorted hazardLE (buildSortedHazards others trackSpeedMps) ∧
    ∀ h ∈ buildSortedHazards others trackSpeedMps,
      (acsesInForce (buildSortedHazards others trackSpeedMps)).penaltyCurveMps ≤
        h.penaltyCurveMps := by
  have hsorted : List.Sorted hazardLE (buildSortedHazards others trackSpeedMps) :=
    List.sorted_insertionSort hazardLE _
  have hne : buildSortedHazards others trackSpeedMps ≠ [] := by
    have hlen : (buildSortedHazards others trackSpeedMps).length = others.length + 1 := by
      rw [buildSortedHazards, sortHazards, List.length_insertionSort, List.length_append]
      rfl
    intro hnil
    rw [hnil] at hlen
    exact absurd hlen.symm (Nat.succ_ne_zero _)
  refine ⟨hne, hsorted, ?_⟩
  intro h hmem
  rcases hlist : buildSortedHazards others trackSpeedMps with _ | ⟨a, l⟩
  · exact absurd hlist hne
  · rw [hlist] at hmem hsorted
    rcases List.mem_cons.mp hmem with heq | hmem2
    · rw [heq]
      exact le_rfl
    · exact List.rel_of_sorted_cons hsorted h hmem2

/-- C6: in the ASC Downgrade state with the acknowledge flag unset, the
commanded brake is none while the stopwatch is at most 7 s, penalty between
7 s and 14 s, and max-service beyond 14 s; a clock tick escalates the state to
Emergency once the stopwatch exceeds 21 s and otherwise accumulates time,
while a set acknowledge flag returns the machine to Normal on the next clock
tick. -/
theorem asc_downgrade_escalation (inp : AscInputs) (s dt : ℚ) (hact : inp.isActive = true) :
    (s ≤ downgradePenaltyS →
      (ascOutput inp (AscAccum.downgrade s false)).brakes = AscBrake.none) ∧
    (downgradePenaltyS < s → s ≤ downgradeMaxServiceS →
      (ascOutput inp (AscAccum.downgrade s false)).brakes = AscBrake.penalty) ∧
    (downgradeMaxServiceS < s →
      (ascOutput inp (AscAccum.downgrade s false)).brakes = AscBrake.maxService) ∧
    (downgradeEmergencyS < s →
      ascStep inp (AscAccum.downgrade s false) (AscEvent.update dt) = AscAccum.emergency) ∧
    (s ≤ downgradeEmergencyS →
      ascStep inp (AscAccum.downgrade s false) (AscEvent.update dt) =
        AscAccum.downgrade (s + dt) inp.acknowledge) ∧
    ascStep inp (AscAccum.downgrade s true) (AscEvent.update dt) = AscAccum.normal := by
  refine ⟨?_, ?_, ?_, ?_, ?_, ?_⟩
  · intro hs
    have h14 : ¬(s > downgradeMaxServiceS) := by
      rw [downgradeMaxServiceS]
      rw [downgradePenaltyS] at hs
      intro hlt
      linarith
    have h7 : ¬(s > downgradePenaltyS) := not_lt.mpr hs
    simp [ascOutput, h14, h7]
  · intro h7 h14
    have h14n : ¬(s > downgradeMaxServiceS) := not_lt.mpr h14
    simp [ascOutput, h14n, h7]
  · intro h14
    simp [ascOutput, h14]
  · intro h21
    simp [ascStep, hact, h21]
  · intro h21
    have h21n : ¬(s > downgradeEmergencyS) := not_lt.mpr h21
    simp [ascStep, hact, h21n]
  · simp [ascStep, hact]

/-- Witness for C6 at concrete stopwatch values in each band. -/
theorem asc_downgrade_escalation_witness :
    (ascOutput ⟨true, false, false, 0, 0, none⟩ (AscAccum.downgrade 5 false)).brakes =
      AscBrake.none ∧
    (ascOutput ⟨true, false, false, 0, 0, none⟩ (AscAccum.downgrade 10 false)).brakes =
      AscBrake.penalty ∧
    (ascOutput ⟨true, false, false, 0, 0, none⟩ (AscAccum.downgrade 16 false)).brakes =
      AscBrake.maxService ∧
    ascStep ⟨true, false, false, 0, 0, none⟩ (AscAccum.downgrade 22 false) (AscEvent.update 1) =
      AscAccum.emergency ∧
    ascStep ⟨true, false, false, 0, 0, none⟩ (AscAccum.downgrade 16 false) (AscEvent.update 1) =
      AscAccum.downgrade (16 + 1) false ∧
    ascStep ⟨true, false, false, 0, 0, none⟩ (AscAccum.downgrade 5 true) (AscEvent.update 1) =
      AscAccum.normal :=
  ⟨(asc_downgrade_escalation ⟨true, false, false, 0, 0, none⟩ 5 1 rfl).1
      (by norm_num [downgradePenaltyS]),
   (asc_downgrade_escalation ⟨true, false, false, 0, 0, none⟩ 10 1 rfl).2.1
      (by norm_num [downgradePenaltyS]) (by norm_num [downgradeMaxServiceS]),
   (asc_downgrade_escalation ⟨true, false, false, 0, 0, none⟩ 16 1 rfl).2.2.1
      (by norm_num [downgradeMaxServiceS]),
   (asc_downgrade_escalation ⟨true, false, false, 0, 0, none⟩ 22 1 rfl).2.2.2.1
      (by norm_num [downgradeEmergencyS]),
   (asc_downgrade_escalation ⟨true, false, false, 0, 0, none⟩ 16 1 rfl).2.2.2.2.1
      (by norm_num [downgradeEmergencyS]),
   (asc_downgrade_escalation ⟨true, false, false, 0, 0, none⟩ 5 1 rfl).2.2.2.2.2⟩

/-- C8: with the ASC active and a cab aspect in effect, any measured speed
strictly above the overspeed setpoint of that aspect makes the overspeed-detection
behavior fire, and the resulting overspeed event moves the Normal state to the
Overspeed state in one fold step, recording the aspect and the entry speed. -/
theorem asc_overspeed_entry (A : LirrAspect) (inp : AscInputs)
    (hact : inp.isActive = true) (hasp : inp.theCabAspect = some A)
    (hv : toOverspeedSetpointMps A < inp.aSpeedMps) :
    isOverspeed inp.isActive inp.theCabAspect inp.aSpeedMps = true ∧
    ascStep inp AscAccum.normal (AscEvent.overspeedEntry A inp.aSpeedMps) =
      AscAccum.overspeed A inp.aSpeedMps 0 false := by
  constructor
  · simp [isOverspeed, hact, hasp, hv]
  · simp [ascStep, hact]

/-- Witness for C8 at the Speed30 aspect and 15 m/s, which exceeds the
32 mph setpoint. -/
theorem asc_overspeed_entry_witness :
    isOverspeed true (some LirrAspect.speed30) 15 = true ∧
    ascStep ⟨true, false, false, 15, 0, some LirrAspect.speed30⟩ AscAccum.normal
      (AscEvent.overspeedEntry LirrAspect.speed30 15) =
      AscAccum.overspeed LirrAspect.speed30 15 0 false :=
  asc_overspeed_entry LirrAspect.speed30 ⟨true, false, false, 15, 0, some LirrAspect.speed30⟩
    rfl rfl (by norm_num [toOverspeedSetpointMps, mphToMps])

/-- C10: an Overspeed state entered with initial aspect Speed15 can never
escalate to Emergency: both brake-assurance lookups return none for Speed15,
and a fold step from such a state yields either Normal or another Overspeed
state with the same initial aspect and speed, never Emergency. -/
theorem asc_overspeed_speed15_no_emergency (inp : AscInputs) (v s : ℚ) (ack : Bool)
    (event : AscEvent) :
    toBrakeAssuranceRateMphS LirrAspect.speed15 v = none ∧
    toBrakeAssuranceTimeS LirrAspect.speed15 v = none ∧
    ascStep inp (AscAccum.overspeed LirrAspect.speed15 v s ack) event ≠ AscAccum.emergency ∧
    (ascStep inp (AscAccum.overspeed LirrAspect.speed15 v s ack) event = AscAccum.normal ∨
      ∃ (s2 : ℚ) (ack2 : Bool),
        ascStep inp (AscAccum.overspeed LirrAspect.speed15 v s ack) event =
          AscAccum.overspeed LirrAspect.speed15 v s2 ack2) := by
  have hmain :
      ascStep inp (AscAccum.overspeed LirrAspect.speed15 v s ack) event = AscAccum.normal ∨
      ∃ (s2 : ℚ) (ack2 : Bool),
        ascStep inp (AscAccum.overspeed LirrAspect.speed15 v s ack) event =
          AscAccum.overspeed LirrAspect.speed15 v s2 ack2 := by
    rw [ascStep.eq_def]
    by_cases hactive : inp.isActive = false
    · rw [if_pos hactive]
      exact Or.inl rfl
    · rw [if_neg hactive]
      cases event with
      | downgrade => exact Or.inr ⟨s, ack, rfl⟩
      | overspeedEntry a2 v2 => exact Or.inr ⟨s, ack, rfl⟩
      | update dt =>
          dsimp only [toBrakeAssuranceTimeS, isBrakeAssurance, toBrakeAssuranceRateMphS]
          split
          · exact Or.inl rfl
          · exact Or.inr ⟨s + dt, ack || inp.acknowledge, rfl⟩
  refine ⟨rfl, rfl, ?_, hmain⟩
  rcases hmain with h | ⟨s2, ack2, h⟩ <;> rw [h] <;> simp

/-- C4: on the stated domain the braking curve equals the closed form
max(sqrt((a·t)² − 2·a·d + vf²) + a·t, vf), the radicand is never negative
there, and a negative radicand (which cannot occur) would clamp the result to
the target speed. -/
theorem getBrakingCurve_closed_form (vf d t : ℝ) (_hvf : 0 ≤ vf) (hd : 0 ≤ d) (_ht : 0 ≤ t) :
    getBrakingCurve vf d t =
      max (Real.sqrt ((penaltyCurveMps2 * t) ^ 2 - 2 * penaltyCurveMps2 * d + vf ^ 2) +
          penaltyCurveMps2 * t) vf ∧
    0 ≤ (penaltyCurveMps2 * t) ^ 2 - 2 * penaltyCurveMps2 * d + vf ^ 2 ∧
    ((penaltyCurveMps2 * t) ^ 2 - 2 * penaltyCurveMps2 * d + vf ^ 2 < 0 →
      getBrakingCurve vf d t = vf) := by
  have hrad : 0 ≤ gbcRadicand vf d t := gbcRadicand_nonneg vf d t hd
  rw [gbcRadicand] at hrad
  refine ⟨?_, hrad, ?_⟩
  · rw [getBrakingCurve_sqrt, gbcRadicand]
  · intro hneg
    exact absurd hneg (not_lt.mpr hrad)

/-- Witness for C4 at vf = 1, d = 2, t = 3. -/
theorem getBrakingCurve_closed_form_witness :
    getBrakingCurve 1 2 3 =
      max (Real.sqrt ((penaltyCurveMps2 * 3) ^ 2 - 2 * penaltyCurveMps2 * 2 + 1 ^ 2) +
          penaltyCurveMps2 * 3) 1 ∧
    0 ≤ (penaltyCurveMps2 * 3) ^ 2 - 2 * penaltyCurveMps2 * 2 + 1 ^ 2 ∧
    ((penaltyCurveMps2 * 3) ^ 2 - 2 * penaltyCurveMps2 * 2 + 1 ^ 2 < 0 →
      getBrakingCurve 1 2 3 = 1) :=
  getBrakingCurve_closed_form 1 2 3 (by norm_num) (by norm_num) (by norm_num)

/-- C9: for fixed other arguments on the stated domain, the braking curve is
monotonically non-decreasing in the target speed and in the distance, and
monotonically non-increasing in the time budget. -/
theorem getBrakingCurve_monotone (vf vf2 d d2 t t2 : ℝ)
    (hvf : 0 ≤ vf) (hd : 0 ≤ d) (ht : 0 ≤ t) :
    (vf ≤ vf2 → getBrakingCurve vf d t ≤ getBrakingCurve vf2 d t) ∧
    (d ≤ d2 → getBrakingCurve vf d t ≤ getBrakingCurve vf d2 t) ∧
    (t ≤ t2 → getBrakingCurve vf d t2 ≤ getBrakingCurve vf d t) := by
  have ha : penaltyCurveMps2 < 0 := penaltyCurveMps2_neg
  refine ⟨?_, ?_, ?_⟩
  · intro hv2
    rw [getBrakingCurve_sqrt, getBrakingCurve_sqrt]
    refine max_le_max (add_le_add_right (Real.sqrt_le_sqrt ?_) _) hv2
    rw [gbcRadicand, gbcRadicand]
    nlinarith [hvf, hv2]
  · intro hd2
    rw [getBrakingCurve_sqrt, getBrakingCurve_sqrt]
    refine max_le_max (add_le_add_right (Real.sqrt_le_sqrt ?_) _) le_rfl
    rw [gbcRadicand, gbcRadicand]
    nlinarith [ha, hd2]
  · intro ht2
    rw [getBrakingCurve_sqrt, getBrakingCurve_sqrt]
    have hXt : 0 ≤ gbcRadicand vf d t := gbcRadicand_nonneg vf d t hd
    have hu : 0 ≤ Real.sqrt (gbcRadicand vf d t) := Real.sqrt_nonneg _
    have husq : Real.sqrt (gbcRadicand vf d t) ^ 2 =
        (penaltyCurveMps2 * t) ^ 2 - 2 * penaltyCurveMps2 * d + vf ^ 2 := by
      rw [Real.sq_sqrt hXt, gbcRadicand]
    have hul : -penaltyCurveMps2 * t ≤ Real.sqrt (gbcRadicand vf d t) := by
      have h1 : (-penaltyCurveMps2 * t) ^ 2 ≤ gbcRadicand vf d t := by
        rw [gbcRadicand]
        nlinarith [sq_nonneg vf, mul_nonpos_of_nonpos_of_nonneg (le_of_lt ha) hd]
      calc -penaltyCurveMps2 * t = Real.sqrt ((-penaltyCurveMps2 * t) ^ 2) := by
            rw [Real.sqrt_sq (by nlinarith)]
        _ ≤ Real.sqrt (gbcRadicand vf d t) := Real.sqrt_le_sqrt h1
    have hD : 0 ≤ -penaltyCurveMps2 * (t2 - t) := by nlinarith
    have hprod : 2 * (-penaltyCurveMps2 * t) * (-penaltyCurveMps2 * (t2 - t)) ≤
        2 * Real.sqrt (gbcRadicand vf d t) * (-penaltyCurveMps2 * (t2 - t)) := by
      nlinarith [hul, hD]
    have key : Real.sqrt (gbcRadicand vf d t2) ≤
        Real.sqrt (gbcRadicand vf d t) + -penaltyCurveMps2 * (t2 - t) := by
      have h2 : gbcRadicand vf d t2 ≤
          (Real.sqrt (gbcRadicand vf d t) + -penaltyCurveMps2 * (t2 - t)) ^ 2 := by
        rw [gbcRadicand]
        nlinarith [husq, hprod, hD, hu]
      calc Real.sqrt (gbcRadicand vf d t2) ≤
            Real.sqrt ((Real.sqrt (gbcRadicand vf d t) + -penaltyCurveMps2 * (t2 - t)) ^ 2) :=
            Real.sqrt_le_sqrt h2
        _ = Real.sqrt (gbcRadicand vf d t) + -penaltyCurveMps2 * (t2 - t) :=
            Real.sqrt_sq (by nlinarith)
    refine max_le_max ?_ le_rfl
    linarith [key]

/-- Witness for C9 at concrete points in each argument. -/
theorem getBrakingCurve_monotone_witness :
    (getBrakingCurve 0 1 0 ≤ getBrakingCurve 1 1 0) ∧
    (getBrakingCurve 0 1 0 ≤ getBrakingCurve 0 2 0) ∧
    (getBrakingCurve 0 1 1 ≤ getBrakingCurve 0 1 0) :=
  ⟨(getBrakingCurve_monotone 0 1 1 2 0 1 (by norm_num) (by norm_num) (by norm_num)).1
      (by norm_num),
   (getBrakingCurve_monotone 0 1 1 2 0 1 (by norm_num) (by norm_num) (by norm_num)).2.1
      (by norm_num),
   (getBrakingCurve_monotone 0 1 1 2 0 1 (by norm_num) (by norm_num) (by norm_num)).2.2
      (by norm_num)⟩

end M3
